import Mathlib

/-
Verification of the order / payment workflow of the e-commerce backend.

The definitions below are a shallow embedding of the JavaScript source:
  * src/controllers/order.controller.js   (create, cancel, calculateTax)
  * src/controllers/payment.controller.js (create, verify, confirmPayment)
  * src/schemas/payment.schema.js         (VerifyPaymentSchema)
  * prisma/schema.prisma                  (data model, defaults)

Monetary values are modelled as exact rationals (the data model declares
them as fixed-point Decimal(10,2) columns).  JavaScript's Math.round is
floor(x + 1/2) (round half toward positive infinity).  Timestamps are not
modelled.  Prisma's interactive transaction is modelled as all-or-nothing:
an operation either returns the updated store or an error, and the
run* wrappers keep the old store on error (rollback).
-/

namespace ECom

/-- JavaScript Math.round: floor (x + 1/2), rounding half toward +infinity.
Written with the executable Rat.floor so that concrete inputs evaluate. -/
def jsRound (x : ℚ) : ℤ := (x + 1/2).floor

/-- Rounding to two decimals: Math.round(x * 100) / 100, as used throughout
order.controller.js. -/
def round2 (x : ℚ) : ℚ := (jsRound (x * 100) : ℚ) / 100

/-- order.controller.js calculateTax: Math.round(subtotal * 0.18 * 100) / 100. -/
def calculateTax (subtotal : ℚ) : ℚ := round2 (subtotal * (18/100))

/-- JavaScript `a || b` on an optional string: empty string and absence are
both falsy and fall through to the default. -/
def jsOr (o : Option String) (d : String) : String :=
  match o with
  | some s => if s = "" then d else s
  | none => d

/-- JavaScript `a || null` on an optional string: empty string becomes null. -/
def jsOrNone (o : Option String) : Option String :=
  match o with
  | some s => if s = "" then none else some s
  | none => none

/-- Order status enum (prisma OrderStatus). -/
inductive OrderStatus where
  | AWAITING_PAYMENT
  | PREPARING
  | READY_FOR_SHIPPING
  | SHIPPED
  | DELIVERED
  | CANCELLED
deriving DecidableEq, Repr

/-- Payment status enum (prisma PaymentStatus); also the type of a
verification decision, which the controller restricts to VERIFIED/REJECTED. -/
inductive PaymentStatus where
  | PENDING
  | VERIFIED
  | REJECTED
deriving DecidableEq, Repr

/-- Payment method enum (prisma PaymentMethod); payment.controller.js create
checks membership in this list, which the type enforces here. -/
inductive PaymentMethod where
  | TRANSFER
  | YAPE
  | PLIN
  | CASH
deriving DecidableEq, Repr

/-- User role (prisma Role, restricted to the values the workflow reads). -/
inductive Role where
  | ADMIN
  | CUSTOMER
deriving DecidableEq, Repr

/-- The authenticated user attached to the request by the auth middleware. -/
structure AuthUser where
  id : Nat
  email : Option String
  role : Role
deriving DecidableEq, Repr

/-- Catalog presentation (prisma Presentation): an alternate priced unit. -/
structure Presentation where
  id : Nat
  name : String
  unit : String
  price : ℚ
deriving DecidableEq, Repr

/-- Catalog product (prisma Product) with its presentations. -/
structure Product where
  id : Nat
  name : String
  price : ℚ
  active : Bool
  presentations : List Presentation
deriving DecidableEq, Repr

/-- An order row (prisma Order).  Timestamp columns are not modelled. -/
structure Order where
  id : String
  customerName : String
  customerPhone : String
  customerEmail : Option String
  customerAddress : String
  customerReference : Option String
  userId : Option Nat
  status : OrderStatus
  paymentMethod : PaymentMethod
  paymentStatus : PaymentStatus
  subtotal : ℚ
  tax : ℚ
  total : ℚ
  notes : Option String
  deliveryNotes : Option String
deriving DecidableEq, Repr

/-- An order line item row (prisma OrderItem). -/
structure OrderItem where
  orderId : String
  productId : Nat
  presentationId : Option Nat
  productName : String
  quantity : ℚ
  price : ℚ
  total : ℚ
  presentationInfo : Option (String × String)
deriving DecidableEq, Repr

/-- An order status history row (prisma OrderStatusHistory); append-only. -/
structure HistoryRow where
  orderId : String
  status : OrderStatus
  notes : Option String
  updatedBy : String
deriving DecidableEq, Repr

/-- A payment row (prisma Payment).  Timestamp columns are not modelled. -/
structure Payment where
  id : String
  orderId : String
  customerName : String
  customerPhone : String
  amount : ℚ
  method : PaymentMethod
  status : PaymentStatus
  voucher : Option String
  referenceNumber : Option String
  verificationNotes : Option String
  verifiedBy : Option String
  rejectedReason : Option String
deriving DecidableEq, Repr

/-- The persistent store the controllers read and write through prisma. -/
structure Store where
  products : List Product
  orders : List Order
  items : List OrderItem
  history : List HistoryRow
  payments : List Payment
deriving DecidableEq, Repr

/-- prisma.order.findUnique on the primary key. -/
def findOrder (s : Store) (oid : String) : Option Order :=
  s.orders.find? (fun o => o.id == oid)

/-- prisma.payment.findUnique on the primary key. -/
def findPayment (s : Store) (pid : String) : Option Payment :=
  s.payments.find? (fun p => p.id == pid)

/-- prisma.payment.findFirst filtered by orderId. -/
def findPaymentByOrder (s : Store) (oid : String) : Option Payment :=
  s.payments.find? (fun p => p.orderId == oid)

/-- prisma.order.update on the primary key. -/
def updateOrders (l : List Order) (oid : String) (f : Order → Order) : List Order :=
  l.map (fun o => if o.id == oid then f o else o)

/-- prisma.payment.update on the primary key, writing the given row. -/
def updatePayments (l : List Payment) (pid : String) (b : Payment) : List Payment :=
  l.map (fun p => if p.id == pid then b else p)

/-- Domain errors: the (kind, message) pairs the controllers answer with. -/
inductive Err where
  | badRequest (msg : String)
  | notFound (entity : String)
  | forbidden
  | orderAlreadyHasPayment
  | amountMismatch
  | paymentAlreadyProcessed
  | paymentNotVerified
  | invalidOrderStatus
  | orderAlreadyCancelled
  | orderAlreadyDelivered
  | invalidProduct (msg : String)
  | invalidItems
deriving DecidableEq, Repr

/-- One requested line of a createOrder body: { product_id, presentation_id,
quantity }. -/
structure ItemReq where
  product_id : Nat
  presentation_id : Option Nat
  quantity : ℚ
deriving DecidableEq, Repr

/-- The createOrder request body (customer snapshot, method, items). -/
structure CreateOrderReq where
  customer_name : String
  customer_phone : String
  customer_email : Option String
  customer_address : String
  customer_reference : Option String
  payment_method : PaymentMethod
  notes : Option String
  delivery_notes : Option String
  items : List ItemReq
deriving DecidableEq, Repr

/-- A priced line before it is attached to an order: the orderItems entry
built inside the createOrder transaction loop. -/
structure Line where
  productId : Nat
  presentationId : Option Nat
  productName : String
  quantity : ℚ
  price : ℚ
  total : ℚ
  presentationInfo : Option (String × String)
deriving DecidableEq, Repr

/-- Attach a priced line to an order id, giving the persisted OrderItem row. -/
def Line.toOrderItem (l : Line) (oid : String) : OrderItem :=
  { orderId := oid, productId := l.productId, presentationId := l.presentationId,
    productName := l.productName, quantity := l.quantity, price := l.price,
    total := l.total, presentationInfo := l.presentationInfo }

/-- JavaScript truthiness of `presentation_id`: the controller tests
`if (presentation_id)` and stores `presentation_id ? parseInt(...) : null`,
so an id of 0 behaves like an absent one. -/
def presOptVal : Option Nat → Option Nat
  | some 0 => none
  | some n => some n
  | none => none

/-- One iteration of the createOrder item loop
(order.controller.js create, lines 260-312): validate the item, resolve the
product and optional presentation, pick the unit price and compute the
rounded line total. -/
def priceItem (prods : List Product) (it : ItemReq) : Except Err Line :=
  if it.product_id = 0 ∨ it.quantity ≤ 0 then
    Except.error Err.invalidItems
  else
    match prods.find? (fun p => p.id == it.product_id) with
    | none => Except.error (Err.invalidProduct "not found")
    | some prod =>
      if prod.active = false then
        Except.error (Err.invalidProduct "not active")
      else
        match presOptVal it.presentation_id with
        | none =>
          Except.ok { productId := it.product_id, presentationId := none,
                      productName := prod.name, quantity := it.quantity,
                      price := prod.price,
                      total := round2 (prod.price * it.quantity),
                      presentationInfo := none }
        | some pid =>
          match prod.presentations.find? (fun pr => pr.id == pid) with
          | none => Except.error (Err.invalidProduct "presentation not found")
          | some pres =>
            Except.ok { productId := it.product_id, presentationId := some pid,
                        productName := prod.name, quantity := it.quantity,
                        price := pres.price,
                        total := round2 (pres.price * it.quantity),
                        presentationInfo := some (pres.name, pres.unit) }

/-- The whole createOrder item loop: prices every item and accumulates the
subtotal; the first failing item aborts the transaction. -/
def processItems (prods : List Product) : List ItemReq → Except Err (List Line × ℚ)
  | [] => Except.ok ([], 0)
  | it :: rest =>
    match priceItem prods it with
    | Except.error e => Except.error e
    | Except.ok l =>
      match processItems prods rest with
      | Except.error e => Except.error e
      | Except.ok (ls, sub) => Except.ok (l :: ls, l.total + sub)

/-- order.controller.js create: validate required fields, price the items,
compute tax and total, then atomically insert the Order row, its OrderItem
rows and one initial OrderStatusHistory row.  The route requires
authentication, so the caller is always present and the order records
userId = user.id. -/
def createOrder (s : Store) (user : AuthUser) (orderId : String)
    (req : CreateOrderReq) : Except Err (Store × Order) :=
  if req.customer_name = "" ∨ req.customer_phone = "" ∨
      req.customer_address = "" ∨ req.items = [] then
    Except.error (Err.badRequest "Missing required fields")
  else
    match processItems s.products req.items with
    | Except.error e => Except.error e
    | Except.ok (lines, subtotal) =>
      let tax := calculateTax subtotal
      let total := round2 (subtotal + tax)
      let o : Order :=
        { id := orderId, customerName := req.customer_name,
          customerPhone := req.customer_phone,
          customerEmail := req.customer_email,
          customerAddress := req.customer_address,
          customerReference := req.customer_reference,
          userId := some user.id, status := OrderStatus.AWAITING_PAYMENT,
          paymentMethod := req.payment_method,
          paymentStatus := PaymentStatus.PENDING,
          subtotal := subtotal, tax := tax, total := total,
          notes := req.notes, deliveryNotes := req.delivery_notes }
      Except.ok
        ({ s with orders := s.orders ++ [o],
                  items := s.items ++ lines.map (fun l => l.toOrderItem orderId),
                  history := s.history ++
                    [{ orderId := orderId, status := OrderStatus.AWAITING_PAYMENT,
                       notes := some "Order created",
                       updatedBy := jsOr user.email "system" }] }, o)

/-- The store after a createOrder request: the prisma transaction commits the
new rows on success and rolls everything back when the callback throws. -/
def runCreateOrder (s : Store) (user : AuthUser) (orderId : String)
    (req : CreateOrderReq) : Store :=
  match createOrder s user orderId req with
  | Except.ok (s', _) => s'
  | Except.error _ => s

/-- The PENDING payment row inserted by payment.controller.js create: id,
customer snapshot from the order, resolved amount, method and optional
reference; status defaults to PENDING per the prisma schema. -/
def newPaymentRow (newId order_id : String) (o : Order) (amount : ℚ)
    (method : PaymentMethod) (reference_number : Option String) : Payment :=
  { id := newId, orderId := order_id, customerName := o.customerName,
    customerPhone := o.customerPhone, amount := amount, method := method,
    status := PaymentStatus.PENDING, voucher := none,
    referenceNumber := jsOrNone reference_number, verificationNotes := none,
    verifiedBy := none, rejectedReason := none }

/-- payment.controller.js create: validate the order, reject a second payment
for the same order, default a missing (or falsy zero) amount to the order
total, enforce the 0.01 tolerance, and insert a PENDING payment row. -/
def createPayment (s : Store) (newId : String) (order_id : String)
    (method : PaymentMethod) (reference_number : Option String)
    (providedAmount : Option ℚ) : Except Err (Store × Payment) :=
  if order_id = "" then Except.error (Err.badRequest "Missing required fields")
  else
    match findOrder s order_id with
    | none => Except.error (Err.notFound "Order")
    | some o =>
      if (findPaymentByOrder s order_id).isSome then
        Except.error Err.orderAlreadyHasPayment
      else
        -- providedAmount ? parseFloat(providedAmount) : parseFloat(order.total)
        -- JavaScript truthiness: an explicit 0 is falsy and falls back.
        let amount : ℚ :=
          match providedAmount with
          | some a => if a = 0 then o.total else a
          | none => o.total
        if |amount - o.total| > 1/100 then Except.error Err.amountMismatch
        else
          let p : Payment := newPaymentRow newId order_id o amount method
            reference_number
          Except.ok ({ s with payments := s.payments ++ [p] }, p)

/-- payment.controller.js verify: only a PENDING payment may be decided; on
VERIFIED the order's payment status becomes VERIFIED (order status untouched)
and one history row is appended; on REJECTED only the payment row and the
order's payment status change.  The controller never validates
rejected_reason (the VerifyPaymentSchema that would is not wired to the
route). -/
def verify (s : Store) (pid : String) (status : PaymentStatus)
    (verification_notes rejected_reason : Option String)
    (actor : Option AuthUser) : Except Err (Store × Payment) :=
  if ¬(status = PaymentStatus.VERIFIED ∨ status = PaymentStatus.REJECTED) then
    Except.error (Err.badRequest "Invalid verification status")
  else
    match findPayment s pid with
    | none => Except.error (Err.notFound "Payment")
    | some p =>
      if p.status ≠ PaymentStatus.PENDING then
        Except.error Err.paymentAlreadyProcessed
      else
        let by' := jsOr (actor.bind (fun u => u.email)) "admin"
        let p' : Payment :=
          { p with status := status, verificationNotes := verification_notes,
                   verifiedBy := some by',
                   rejectedReason :=
                     if status = PaymentStatus.REJECTED then rejected_reason
                     else none }
        let s₁ := { s with payments := updatePayments s.payments pid p' }
        if status = PaymentStatus.VERIFIED then
          Except.ok
            ({ s₁ with
                orders := updateOrders s₁.orders p.orderId
                  (fun o => { o with paymentStatus := PaymentStatus.VERIFIED }),
                history := s₁.history ++
                  [{ orderId := p.orderId,
                     status := OrderStatus.AWAITING_PAYMENT,
                     notes := some "Payment verified - awaiting final confirmation to start preparation",
                     updatedBy := by' }] }, p')
        else
          Except.ok
            ({ s₁ with
                orders := updateOrders s₁.orders p.orderId
                  (fun o => { o with paymentStatus := PaymentStatus.REJECTED }) },
             p')

/-- The store after a verify request, with transaction rollback on error. -/
def runVerify (s : Store) (pid : String) (status : PaymentStatus)
    (verification_notes rejected_reason : Option String)
    (actor : Option AuthUser) : Store :=
  match verify s pid status verification_notes rejected_reason actor with
  | Except.ok (s', _) => s'
  | Except.error _ => s

/-- payment.controller.js confirmPayment: requires a VERIFIED payment and an
order still AWAITING_PAYMENT, then moves the order to PREPARING and appends
one history row.  The payment row's order always exists through the foreign
key; an absent order is still mapped to NotFound for totality. -/
def confirmPayment (s : Store) (pid : String)
    (confirmation_notes : Option String) (actor : Option AuthUser) :
    Except Err (Store × Order) :=
  match findPayment s pid with
  | none => Except.error (Err.notFound "Payment")
  | some p =>
    if p.status ≠ PaymentStatus.VERIFIED then
      Except.error Err.paymentNotVerified
    else
      match findOrder s p.orderId with
      | none => Except.error (Err.notFound "Order")
      | some o =>
        if o.status ≠ OrderStatus.AWAITING_PAYMENT then
          Except.error Err.invalidOrderStatus
        else
          Except.ok
            ({ s with
                orders := updateOrders s.orders p.orderId
                  (fun x => { x with status := OrderStatus.PREPARING }),
                history := s.history ++
                  [{ orderId := p.orderId, status := OrderStatus.PREPARING,
                     notes := some (jsOr confirmation_notes
                       "Payment confirmed - order started preparation"),
                     updatedBy := jsOr (actor.bind (fun u => u.email)) "admin" }] },
             { o with status := OrderStatus.PREPARING })

/-- order.controller.js cancel, permission check: with no authenticated user
both strict comparisons `req.user?.role !== 'ADMIN'` and
`req.user?.id !== order.userId` hold (undefined is strictly unequal even to
null), so the request is forbidden. -/
def cancelForbidden (actor : Option AuthUser) (o : Order) : Bool :=
  match actor with
  | none => true
  | some u => !(u.role == Role.ADMIN) && !((some u.id : Option Nat) == o.userId)

/-- order.controller.js cancel: a CANCELLED order cannot be cancelled again,
a DELIVERED order cannot be cancelled at all; otherwise the status becomes
CANCELLED and one history row is appended with the reason (default text when
the reason is missing or empty). -/
def cancel (s : Store) (oid : String) (reason : Option String)
    (actor : Option AuthUser) : Except Err (Store × Order) :=
  match findOrder s oid with
  | none => Except.error (Err.notFound "Order")
  | some o =>
    if cancelForbidden actor o then Except.error Err.forbidden
    else if o.status = OrderStatus.CANCELLED then
      Except.error Err.orderAlreadyCancelled
    else if o.status = OrderStatus.DELIVERED then
      Except.error Err.orderAlreadyDelivered
    else
      Except.ok
        ({ s with
            orders := updateOrders s.orders oid
              (fun x => { x with status := OrderStatus.CANCELLED }),
            history := s.history ++
              [{ orderId := oid, status := OrderStatus.CANCELLED,
                 notes := some (jsOr reason "Order cancelled"),
                 updatedBy := jsOr (actor.bind (fun u => u.email)) "system" }] },
         { o with status := OrderStatus.CANCELLED })

/-- payment.schema.js VerifyPaymentSchema refinement: a REJECTED decision
must carry a non-empty (after trim) rejected_reason of 5 to 500 characters;
this schema exists in the repository but is not applied on the verify
route. -/
def validateVerifyPayment (status : PaymentStatus)
    (rejected_reason : Option String) : Bool :=
  let fieldOk :=
    match rejected_reason with
    | none => true
    | some r => r = "" || (5 ≤ r.length && r.length ≤ 500)
  let refineOk :=
    !(status == PaymentStatus.REJECTED &&
      (match rejected_reason with
       | none => true
       | some r => r.trim == ""))
  fieldOk && refineOk

/-- The payment row written by verify for a VERIFIED decision. -/
def verifiedRow (p : Payment) (verification_notes : Option String)
    (actor : Option AuthUser) : Payment :=
  { p with status := PaymentStatus.VERIFIED,
           verificationNotes := verification_notes,
           verifiedBy := some (jsOr (actor.bind (fun u => u.email)) "admin"),
           rejectedReason := none }

/-- The payment row written by verify for a REJECTED decision. -/
def rejectedRow (p : Payment) (verification_notes rejected_reason : Option String)
    (actor : Option AuthUser) : Payment :=
  { p with status := PaymentStatus.REJECTED,
           verificationNotes := verification_notes,
           verifiedBy := some (jsOr (actor.bind (fun u => u.email)) "admin"),
           rejectedReason := rejected_reason }

/-- The history row appended by verify when the decision is VERIFIED. -/
def verifiedHistRow (p : Payment) (actor : Option AuthUser) : HistoryRow :=
  { orderId := p.orderId, status := OrderStatus.AWAITING_PAYMENT,
    notes := some "Payment verified - awaiting final confirmation to start preparation",
    updatedBy := jsOr (actor.bind (fun u => u.email)) "admin" }

/-- x is a whole number of cents. -/
def isCent (x : ℚ) : Prop := ∃ k : ℤ, x = (k : ℚ) / 100

/-- A createOrder item the pricing loop must reject: a falsy product id, a
non-positive quantity, an unknown product, or an inactive product. -/
def badItem (prods : List Product) (it : ItemReq) : Prop :=
  it.product_id = 0 ∨ it.quantity ≤ 0 ∨
  prods.find? (fun p => p.id == it.product_id) = none ∨
  ∃ prod, prods.find? (fun p => p.id == it.product_id) = some prod ∧
    prod.active = false

/-- A line's unit price is the catalog price of its product, or of its
presentation when one is referenced, and the product is active. -/
def linePriced (prods : List Product) (l : Line) : Prop :=
  ∃ prod, prods.find? (fun p => p.id == l.productId) = some prod ∧
    prod.active = true ∧
    ((l.presentationId = none ∧ l.price = prod.price) ∨
     (∃ pid pres, l.presentationId = some pid ∧
        prod.presentations.find? (fun pr => pr.id == pid) = some pres ∧
        l.price = pres.price))

/-! Concrete fixtures used by the witnesses and counterexamples: the spec's
worked example (Apple 2.50/kg, Milk 3.80/L, subtotal 8.80, tax 1.58, total
10.38). -/

/-- Catalog fixture: Apple at 2.50, active. -/
def apple : Product :=
  { id := 1, name := "Apple", price := 5/2, active := true, presentations := [] }

/-- Catalog fixture: Milk at 3.80, active. -/
def milk : Product :=
  { id := 2, name := "Milk", price := 19/5, active := true, presentations := [] }

/-- Catalog fixture: an inactive product. -/
def oldStock : Product :=
  { id := 3, name := "Old stock", price := 1, active := false, presentations := [] }

/-- Admin fixture used as the acting verifier. -/
def adminUser : AuthUser :=
  { id := 1, email := some "admin@store.test", role := Role.ADMIN }

/-- Customer fixture who owns the sample order. -/
def anaUser : AuthUser :=
  { id := 7, email := some "ana@mail.test", role := Role.CUSTOMER }

/-- Order fixture with the spec's totals: subtotal 8.80, tax 1.58,
total 10.38, freshly created. -/
def ordA : Order :=
  { id := "ORD-1", customerName := "Ana", customerPhone := "999111222",
    customerEmail := none, customerAddress := "Calle 1",
    customerReference := none, userId := some 7,
    status := OrderStatus.AWAITING_PAYMENT, paymentMethod := PaymentMethod.CASH,
    paymentStatus := PaymentStatus.PENDING,
    subtotal := 44/5, tax := 79/50, total := 519/50,
    notes := none, deliveryNotes := none }

/-- Payment fixture: PENDING payment of 10.38 against ORD-1. -/
def payPending : Payment :=
  { id := "PAY-1", orderId := "ORD-1", customerName := "Ana",
    customerPhone := "999111222", amount := 519/50,
    method := PaymentMethod.CASH, status := PaymentStatus.PENDING,
    voucher := none, referenceNumber := none, verificationNotes := none,
    verifiedBy := none, rejectedReason := none }

/-- Store fixture: catalog plus ORD-1 with no payment yet. -/
def storeNoPay : Store :=
  { products := [apple, milk, oldStock], orders := [ordA], items := [],
    history := [], payments := [] }

/-- Store fixture: ORD-1 with its PENDING payment. -/
def storePending : Store :=
  { storeNoPay with payments := [payPending] }

/-- Store fixture: ORD-1 whose payment is already VERIFIED (order still
AWAITING_PAYMENT, awaiting the confirm step). -/
def storeVerified : Store :=
  { products := [apple, milk, oldStock],
    orders := [{ ordA with paymentStatus := PaymentStatus.VERIFIED }],
    items := [], history := [],
    payments := [{ payPending with status := PaymentStatus.VERIFIED }] }

/-- createOrder request fixture matching the spec's worked example. -/
def reqA : CreateOrderReq :=
  { customer_name := "Ana", customer_phone := "999111222",
    customer_email := none, customer_address := "Calle 1",
    customer_reference := none, payment_method := PaymentMethod.CASH,
    notes := none, delivery_notes := none,
    items := [ { product_id := 1, presentation_id := none, quantity := 2 },
               { product_id := 2, presentation_id := none, quantity := 1 } ] }

/-- createOrder request fixture whose single item references the inactive
product. -/
def reqBad : CreateOrderReq :=
  { reqA with items := [ { product_id := 3, presentation_id := none,
                           quantity := 1 } ] }

/-- The order createOrder builds for reqA: subtotal 8.80, tax 1.58,
total 10.38. -/
def ordB : Order :=
  { id := "ORD-2", customerName := "Ana", customerPhone := "999111222",
    customerEmail := none, customerAddress := "Calle 1",
    customerReference := none, userId := some 7,
    status := OrderStatus.AWAITING_PAYMENT, paymentMethod := PaymentMethod.CASH,
    paymentStatus := PaymentStatus.PENDING,
    subtotal := 44/5, tax := 79/50, total := 519/50,
    notes := none, deliveryNotes := none }

/-- The Apple line item of ordB: 2 kg at 2.50, line total 5.00. -/
def lineApple : OrderItem :=
  { orderId := "ORD-2", productId := 1, presentationId := none,
    productName := "Apple", quantity := 2, price := 5/2, total := 5,
    presentationInfo := none }

/-- The Milk line item of ordB: 1 L at 3.80, line total 3.80. -/
def lineMilk : OrderItem :=
  { orderId := "ORD-2", productId := 2, presentationId := none,
    productName := "Milk", quantity := 1, price := 19/5, total := 19/5,
    presentationInfo := none }

/-- The store after createOrder committed reqA as ORD-2. -/
def storeAfterB : Store :=
  { products := [apple, milk, oldStock], orders := [ordA, ordB],
    items := [lineApple, lineMilk],
    history := [{ orderId := "ORD-2", status := OrderStatus.AWAITING_PAYMENT,
                  notes := some "Order created",
                  updatedBy := "ana@mail.test" }],
    payments := [] }

/-! General lemmas about the embedding. -/

/-- jsRound is the mathematical floor of x + 1/2. -/
theorem jsRound_eq_floor (x : ℚ) : jsRound x = ⌊x + 1/2⌋ := by
  rw [jsRound, Rat.floor_def', ← Rat.floor_def]

/-- round2 always produces a whole number of cents. -/
theorem isCent_round2 (x : ℚ) : isCent (round2 x) := ⟨jsRound (x * 100), rfl⟩

/-- Zero is a whole number of cents. -/
theorem isCent_zero : isCent 0 := ⟨0, by norm_num⟩

/-- A sum of whole-cent amounts is a whole-cent amount. -/
theorem isCent_add {x y : ℚ} (hx : isCent x) (hy : isCent y) : isCent (x + y) := by
  obtain ⟨k, rfl⟩ := hx
  obtain ⟨m, rfl⟩ := hy
  exact ⟨k + m, by push_cast; ring⟩

/-- round2 is the identity on whole-cent amounts. -/
theorem round2_eq_self {x : ℚ} (hx : isCent x) : round2 x = x := by
  obtain ⟨k, rfl⟩ := hx
  rw [round2, jsRound_eq_floor]
  rw [div_mul_cancel₀ (k : ℚ) (by norm_num : (100 : ℚ) ≠ 0)]
  rw [Int.floor_int_add]
  norm_num

/-- Updating every matching element with a key-preserving function commutes
with find?. -/
theorem find?_map_update {α : Type} (p : α → Bool) (f : α → α)
    (h : ∀ a, p (f a) = p a) (l : List α) :
    (l.map fun a => if p a then f a else a).find? p = (l.find? p).map f := by
  induction l with
  | nil => simp
  | cons a t ih =>
    by_cases hpa : p a = true
    · simp [hpa, List.find?_cons, h]
    · simp only [Bool.not_eq_true] at hpa
      simp [hpa, List.find?_cons, h, ih]

/-- Replacing every matching element with a fixed matching row commutes
with find?. -/
theorem find?_map_const {α : Type} (p : α → Bool) (b : α) (hb : p b = true)
    (l : List α) :
    (l.map fun a => if p a then b else a).find? p =
      (l.find? p).map (fun _ => b) := by
  induction l with
  | nil => simp
  | cons a t ih =>
    by_cases hpa : p a = true
    · simp [hpa, List.find?_cons, hb]
    · simp only [Bool.not_eq_true] at hpa
      simp [hpa, List.find?_cons, ih]

/-- A successfully priced item carries the requested positive quantity, a
catalog unit price, and the rounded line total. -/
theorem priceItem_ok {prods : List Product} {it : ItemReq} {l : Line}
    (h : priceItem prods it = Except.ok l) :
    l.quantity = it.quantity ∧ 0 < l.quantity ∧
    l.total = round2 (l.price * l.quantity) ∧ linePriced prods l := by
  unfold priceItem at h
  split at h
  · exact absurd h (by simp)
  next hval =>
    push_neg at hval
    split at h
    · exact absurd h (by simp)
    next prod hfind =>
      split at h
      · exact absurd h (by simp)
      next hact =>
        split at h
        · cases h
          refine ⟨rfl, lt_of_not_le (by simpa using hval.2), rfl, ?_⟩
          exact ⟨prod, hfind, by simpa using hact, Or.inl ⟨rfl, rfl⟩⟩
        next pid hpres =>
          split at h
          · exact absurd h (by simp)
          next pres hfindp =>
            cases h
            refine ⟨rfl, lt_of_not_le (by simpa using hval.2), rfl, ?_⟩
            exact ⟨prod, hfind, by simpa using hact,
              Or.inr ⟨pid, pres, rfl, hfindp, rfl⟩⟩

/-- A successful pricing loop returns the sum of the line totals as
subtotal, a whole-cent subtotal, and correctly priced lines. -/
theorem processItems_ok {prods : List Product} :
    ∀ {items : List ItemReq} {ls : List Line} {sub : ℚ},
    processItems prods items = Except.ok (ls, sub) →
    sub = (ls.map Line.total).sum ∧ isCent sub ∧
    ∀ l ∈ ls, l.total = round2 (l.price * l.quantity) ∧ linePriced prods l := by
  intro items
  induction items with
  | nil =>
    intro ls sub h
    simp only [processItems] at h
    cases h
    exact ⟨by simp, isCent_zero, by simp⟩
  | cons it rest ih =>
    intro ls sub h
    simp only [processItems] at h
    split at h
    · exact absurd h (by simp)
    next l hl =>
      split at h
      · exact absurd h (by simp)
      next pair hrest =>
        obtain ⟨ls', sub'⟩ := pair
        cases h
        obtain ⟨hsum, hcent, hall⟩ := ih hrest
        obtain ⟨-, -, htot, hpriced⟩ := priceItem_ok hl
        refine ⟨by simp [hsum], ?_, ?_⟩
        · exact isCent_add (htot ▸ isCent_round2 (l.price * l.quantity)) hcent
        · intro x hx
          rcases List.mem_cons.mp hx with rfl | hx'
          · exact ⟨htot, hpriced⟩
          · exact hall x hx'

/-- A successful createOrder decomposes into a successful pricing loop and
the three row inserts of the transaction. -/
theorem createOrder_ok {s : Store} {user : AuthUser} {oid : String}
    {req : CreateOrderReq} {s' : Store} {o : Order}
    (h : createOrder s user oid req = Except.ok (s', o)) :
    ∃ lines subtotal,
      processItems s.products req.items = Except.ok (lines, subtotal) ∧
      o.subtotal = subtotal ∧ o.tax = calculateTax subtotal ∧
      o.total = round2 (subtotal + calculateTax subtotal) ∧
      o.userId = some user.id ∧
      o.status = OrderStatus.AWAITING_PAYMENT ∧
      o.paymentStatus = PaymentStatus.PENDING ∧
      s'.products = s.products ∧
      s'.orders = s.orders ++ [o] ∧
      s'.items = s.items ++ lines.map (fun l => l.toOrderItem oid) ∧
      s'.history = s.history ++
        [{ orderId := oid, status := OrderStatus.AWAITING_PAYMENT,
           notes := some "Order created",
           updatedBy := jsOr user.email "system" }] := by
  unfold createOrder at h
  split at h
  · exact absurd h (by simp)
  · split at h
    · exact absurd h (by simp)
    next lines subtotal hpi =>
      cases h
      exact ⟨lines, subtotal, hpi, rfl, rfl, rfl, rfl, rfl, rfl, rfl, rfl, rfl, rfl⟩

/-- verify refuses to touch a payment that is no longer PENDING. -/
theorem verify_already_processed {s : Store} {pid : String}
    {st : PaymentStatus} {n r : Option String} {a : Option AuthUser}
    {p : Payment}
    (hst : st = PaymentStatus.VERIFIED ∨ st = PaymentStatus.REJECTED)
    (hp : findPayment s pid = some p)
    (hstat : ¬ p.status = PaymentStatus.PENDING) :
    verify s pid st n r a = Except.error Err.paymentAlreadyProcessed := by
  unfold verify
  rw [if_neg (not_not_intro hst)]
  simp only [hp]
  rw [if_pos hstat]

/-- The result of verify on a PENDING payment with a VERIFIED decision. -/
theorem verify_verified_eq {s : Store} {pid : String} {n r : Option String}
    {a : Option AuthUser} {p : Payment}
    (hp : findPayment s pid = some p)
    (hpend : p.status = PaymentStatus.PENDING) :
    verify s pid PaymentStatus.VERIFIED n r a =
      Except.ok
        ({ s with
            payments := updatePayments s.payments pid (verifiedRow p n a),
            orders := updateOrders s.orders p.orderId
              (fun o => { o with paymentStatus := PaymentStatus.VERIFIED }),
            history := s.history ++ [verifiedHistRow p a] },
         verifiedRow p n a) := by
  unfold verify
  rw [if_neg (not_not_intro (Or.inl rfl))]
  simp only [hp]
  rw [if_neg (not_not_intro hpend)]
  simp [verifiedRow, verifiedHistRow]

/-- The result of verify on a PENDING payment with a REJECTED decision:
no history row is appended. -/
theorem verify_rejected_eq {s : Store} {pid : String} {n r : Option String}
    {a : Option AuthUser} {p : Payment}
    (hp : findPayment s pid = some p)
    (hpend : p.status = PaymentStatus.PENDING) :
    verify s pid PaymentStatus.REJECTED n r a =
      Except.ok
        ({ s with
            payments := updatePayments s.payments pid (rejectedRow p n r a),
            orders := updateOrders s.orders p.orderId
              (fun o => { o with paymentStatus := PaymentStatus.REJECTED }) },
         rejectedRow p n r a) := by
  unfold verify
  rw [if_neg (not_not_intro (Or.inr rfl))]
  simp only [hp]
  rw [if_neg (not_not_intro hpend)]
  simp [rejectedRow]

/-- Looking a payment up after updatePayments wrote a row with that id. -/
theorem findPayment_updatePayments (l : List Payment) (pid : String)
    (b : Payment) (hb : (b.id == pid) = true) :
    (updatePayments l pid b).find? (fun q => q.id == pid) =
      (l.find? (fun q => q.id == pid)).map (fun _ => b) := by
  unfold updatePayments
  exact find?_map_const (fun q => q.id == pid) b hb l

/-- Looking an order up after updateOrders applied an id-preserving edit. -/
theorem findOrder_updateOrders (l : List Order) (oid : String)
    (f : Order → Order) (hf : ∀ o, (f o).id = o.id) :
    (updateOrders l oid f).find? (fun o => o.id == oid) =
      (l.find? (fun o => o.id == oid)).map f := by
  unfold updateOrders
  exact find?_map_update (fun o => o.id == oid) f (fun o => by simp [hf]) l

/-- createPayment with a provided nonzero amount reduces to the tolerance
check on that amount. -/
theorem createPayment_some_eq {s : Store} {nid oid : String}
    {m : PaymentMethod} {ref : Option String} {o : Order} {x : ℚ}
    (hne : ¬ oid = "") (ho : findOrder s oid = some o)
    (hnp : findPaymentByOrder s oid = none) (hx : ¬ x = 0) :
    createPayment s nid oid m ref (some x) =
      if |x - o.total| > 1/100 then Except.error Err.amountMismatch
      else Except.ok
        ({ s with payments := s.payments ++ [newPaymentRow nid oid o x m ref] },
         newPaymentRow nid oid o x m ref) := by
  unfold createPayment
  rw [if_neg hne]
  simp only [ho, hnp]
  rw [if_neg (by simp)]
  simp only [if_neg hx]

/-- createPayment with no amount defaults to the order total and succeeds. -/
theorem createPayment_none_eq {s : Store} {nid oid : String}
    {m : PaymentMethod} {ref : Option String} {o : Order}
    (hne : ¬ oid = "") (ho : findOrder s oid = some o)
    (hnp : findPaymentByOrder s oid = none) :
    createPayment s nid oid m ref none =
      Except.ok
        ({ s with payments :=
             s.payments ++ [newPaymentRow nid oid o o.total m ref] },
         newPaymentRow nid oid o o.total m ref) := by
  unfold createPayment
  rw [if_neg hne]
  simp only [ho, hnp]
  rw [if_neg (by simp)]
  rw [if_neg (by simp)]

/-- createPayment with an explicit zero amount behaves exactly like an
omitted amount: zero is falsy in the controller's default expression. -/
theorem createPayment_zero_eq {s : Store} {nid oid : String}
    {m : PaymentMethod} {ref : Option String} {o : Order}
    (hne : ¬ oid = "") (ho : findOrder s oid = some o)
    (hnp : findPaymentByOrder s oid = none) :
    createPayment s nid oid m ref (some 0) =
      Except.ok
        ({ s with payments :=
             s.payments ++ [newPaymentRow nid oid o o.total m ref] },
         newPaymentRow nid oid o o.total m ref) := by
  unfold createPayment
  rw [if_neg hne]
  simp only [ho, hnp]
  rw [if_neg (by simp)]
  rw [if_neg (by simp)]
  simp

/-- The pricing loop rejects every bad item it reaches. -/
theorem priceItem_badItem {prods : List Product} {it : ItemReq}
    (h : badItem prods it) : ∃ e, priceItem prods it = Except.error e := by
  unfold priceItem
  by_cases h0 : it.product_id = 0 ∨ it.quantity ≤ 0
  · exact ⟨_, by rw [if_pos h0]⟩
  · rw [if_neg h0]
    rcases h with h | h | hnone | ⟨prod, hfind, hact⟩
    · exact absurd (Or.inl h) h0
    · exact absurd (Or.inr h) h0
    · exact ⟨Err.invalidProduct "not found", by simp only [hnone]⟩
    · refine ⟨Err.invalidProduct "not active", ?_⟩
      simp only [hfind]
      rw [if_pos hact]

/-- A bad item anywhere in the list makes the whole pricing loop fail. -/
theorem processItems_badItem {prods : List Product} :
    ∀ {items : List ItemReq}, (∃ it ∈ items, badItem prods it) →
    ∃ e, processItems prods items = Except.error e := by
  intro items
  induction items with
  | nil => rintro ⟨it, hmem, -⟩; simp at hmem
  | cons a t ih =>
    rintro ⟨it, hmem, hbad⟩
    rcases List.mem_cons.mp hmem with rfl | hmem'
    · obtain ⟨e, he⟩ := priceItem_badItem hbad
      exact ⟨e, by simp only [processItems, he]⟩
    · cases hpa : priceItem prods a with
      | error e => exact ⟨e, by simp only [processItems, hpa]⟩
      | ok l =>
        obtain ⟨e, he⟩ := ih ⟨it, hmem', hbad⟩
        exact ⟨e, by simp only [processItems, hpa, he]⟩

/-- Every order built by createOrder records the authenticated caller. -/
theorem createOrder_userId {s : Store} {user : AuthUser} {oid : String}
    {req : CreateOrderReq} {s' : Store} {o : Order}
    (h : createOrder s user oid req = Except.ok (s', o)) :
    o.userId = some user.id := by
  obtain ⟨-, -, -, -, -, -, huid, -⟩ := createOrder_ok h
  exact huid

/-- Evaluation of createOrder on the spec's worked example: two items price
to subtotal 8.80, tax 1.58, total 10.38, and the three inserts commit. -/
theorem createOrder_concrete :
    createOrder storeNoPay anaUser "ORD-2" reqA =
      Except.ok (storeAfterB, ordB) := by
  simp [createOrder, processItems, priceItem, storeNoPay, reqA, apple, milk,
    oldStock, presOptVal, List.find?, jsOr, anaUser, Line.toOrderItem,
    storeAfterB, ordB, ordA, lineApple, lineMilk, calculateTax]
  norm_num [round2, jsRound, Rat.floor_def']

/-! Claim theorems. -/

/-- C1: verify fails with AlreadyProcessed on any payment whose status is
not PENDING and changes no state; verifying a PENDING payment twice with
decisions VERIFIED or REJECTED succeeds once, fails with AlreadyProcessed
the second time, and the order's payment status reflects only the first
decision. -/
theorem c1_verify_single_verification
    (s : Store) (pid : String) (p : Payment) (d₁ d₂ : PaymentStatus)
    (n₁ r₁ n₂ r₂ : Option String) (a₁ a₂ : Option AuthUser)
    (hp : findPayment s pid = some p)
    (hpend : p.status = PaymentStatus.PENDING)
    (hd₁ : d₁ ≠ PaymentStatus.PENDING) (hd₂ : d₂ ≠ PaymentStatus.PENDING) :
    (∀ (t : Store) (q : Payment), findPayment t pid = some q →
        q.status ≠ PaymentStatus.PENDING →
        verify t pid d₂ n₂ r₂ a₂ = Except.error Err.paymentAlreadyProcessed ∧
        runVerify t pid d₂ n₂ r₂ a₂ = t) ∧
    ∃ s₁ p₁, verify s pid d₁ n₁ r₁ a₁ = Except.ok (s₁, p₁) ∧
      verify s₁ pid d₂ n₂ r₂ a₂ = Except.error Err.paymentAlreadyProcessed ∧
      runVerify s₁ pid d₂ n₂ r₂ a₂ = s₁ ∧
      ∀ o ∈ findOrder s₁ p.orderId, o.paymentStatus = d₁ := by
  have hdv₂ : d₂ = PaymentStatus.VERIFIED ∨ d₂ = PaymentStatus.REJECTED := by
    cases d₂ with
    | PENDING => exact absurd rfl hd₂
    | VERIFIED => exact Or.inl rfl
    | REJECTED => exact Or.inr rfl
  have hp' : s.payments.find? (fun q => q.id == pid) = some p := hp
  have hpb : (p.id == pid) = true :=
    List.find?_some (p := fun q => Payment.id q == pid) (a := p) hp'
  have hguard : ∀ (t : Store) (q : Payment), findPayment t pid = some q →
      q.status ≠ PaymentStatus.PENDING →
      verify t pid d₂ n₂ r₂ a₂ = Except.error Err.paymentAlreadyProcessed ∧
      runVerify t pid d₂ n₂ r₂ a₂ = t := by
    intro t q hq hqs
    have hv := verify_already_processed (n := n₂) (r := r₂) (a := a₂) hdv₂ hq hqs
    exact ⟨hv, by simp only [runVerify, hv]⟩
  refine ⟨hguard, ?_⟩
  have hdv₁ : d₁ = PaymentStatus.VERIFIED ∨ d₁ = PaymentStatus.REJECTED := by
    cases d₁ with
    | PENDING => exact absurd rfl hd₁
    | VERIFIED => exact Or.inl rfl
    | REJECTED => exact Or.inr rfl
  cases hdv₁ with
  | inl h1 =>
    subst h1
    refine ⟨_, _, verify_verified_eq hp hpend, ?_⟩
    have hrow : findPayment
        { s with payments := updatePayments s.payments pid (verifiedRow p n₁ a₁),
                 orders := updateOrders s.orders p.orderId
                   (fun o => { o with paymentStatus := PaymentStatus.VERIFIED }),
                 history := s.history ++ [verifiedHistRow p a₁] } pid =
        some (verifiedRow p n₁ a₁) := by
      show (updatePayments s.payments pid (verifiedRow p n₁ a₁)).find? _ = _
      rw [findPayment_updatePayments s.payments pid (verifiedRow p n₁ a₁) hpb, hp']
      rfl
    obtain ⟨hfail, hrun⟩ := hguard _ _ hrow (by simp [verifiedRow])
    refine ⟨hfail, hrun, ?_⟩
    intro o ho
    have hmap : findOrder
        { s with payments := updatePayments s.payments pid (verifiedRow p n₁ a₁),
                 orders := updateOrders s.orders p.orderId
                   (fun x => { x with paymentStatus := PaymentStatus.VERIFIED }),
                 history := s.history ++ [verifiedHistRow p a₁] } p.orderId =
        (s.orders.find? (fun x => x.id == p.orderId)).map
          (fun x => { x with paymentStatus := PaymentStatus.VERIFIED }) := by
      show (updateOrders s.orders p.orderId _).find? _ = _
      exact findOrder_updateOrders s.orders p.orderId _ (fun x => rfl)
    rw [hmap] at ho
    cases hfo : s.orders.find? (fun x => x.id == p.orderId) with
    | none => rw [hfo] at ho; simp at ho
    | some o₀ =>
      rw [hfo] at ho
      simp only [Option.mem_def, Option.map_some', Option.some.injEq] at ho
      rw [← ho]
  | inr h1 =>
    subst h1
    refine ⟨_, _, verify_rejected_eq hp hpend, ?_⟩
    have hrow : findPayment
        { s with payments := updatePayments s.payments pid (rejectedRow p n₁ r₁ a₁),
                 orders := updateOrders s.orders p.orderId
                   (fun o => { o with paymentStatus := PaymentStatus.REJECTED }) } pid =
        some (rejectedRow p n₁ r₁ a₁) := by
      show (updatePayments s.payments pid (rejectedRow p n₁ r₁ a₁)).find? _ = _
      rw [findPayment_updatePayments s.payments pid (rejectedRow p n₁ r₁ a₁) hpb, hp']
      rfl
    obtain ⟨hfail, hrun⟩ := hguard _ _ hrow (by simp [rejectedRow])
    refine ⟨hfail, hrun, ?_⟩
    intro o ho
    have hmap : findOrder
        { s with payments := updatePayments s.payments pid (rejectedRow p n₁ r₁ a₁),
                 orders := updateOrders s.orders p.orderId
                   (fun x => { x with paymentStatus := PaymentStatus.REJECTED }) } p.orderId =
        (s.orders.find? (fun x => x.id == p.orderId)).map
          (fun x => { x with paymentStatus := PaymentStatus.REJECTED }) := by
      show (updateOrders s.orders p.orderId _).find? _ = _
      exact findOrder_updateOrders s.orders p.orderId _ (fun x => rfl)
    rw [hmap] at ho
    cases hfo : s.orders.find? (fun x => x.id == p.orderId) with
    | none => rw [hfo] at ho; simp at ho
    | some o₀ =>
      rw [hfo] at ho
      simp only [Option.mem_def, Option.map_some', Option.some.injEq] at ho
      rw [← ho]

/-- C1 witness: the double-verification scenario on the concrete pending
payment PAY-1, first VERIFIED then REJECTED. -/
theorem c1_witness :
    ∃ s₁ p₁, verify storePending "PAY-1" PaymentStatus.VERIFIED none none
        (some adminUser) = Except.ok (s₁, p₁) ∧
      verify s₁ "PAY-1" PaymentStatus.REJECTED none none (some adminUser) =
        Except.error Err.paymentAlreadyProcessed ∧
      runVerify s₁ "PAY-1" PaymentStatus.REJECTED none none (some adminUser) = s₁ ∧
      ∀ o ∈ findOrder s₁ payPending.orderId,
        o.paymentStatus = PaymentStatus.VERIFIED :=
  (c1_verify_single_verification storePending "PAY-1" payPending
    PaymentStatus.VERIFIED PaymentStatus.REJECTED none none none none
    (some adminUser) (some adminUser) rfl rfl
    (by decide) (by decide)).2

/-- C2: on every successful createOrder each line total is
round(unit price × quantity, 2) with the unit price taken from the
presentation when given and from the product otherwise, the subtotal is the
sum of the line totals, tax is round(subtotal × 0.18, 2), and the total is
subtotal + tax (the final rounding is the identity on whole-cent values). -/
theorem c2_create_order_pricing
    (s : Store) (user : AuthUser) (oid : String) (req : CreateOrderReq)
    (s' : Store) (o : Order)
    (h : createOrder s user oid req = Except.ok (s', o)) :
    ∃ lines subtotal,
      processItems s.products req.items = Except.ok (lines, subtotal) ∧
      (∀ l ∈ lines, l.total = round2 (l.price * l.quantity) ∧
        linePriced s.products l) ∧
      o.subtotal = (lines.map Line.total).sum ∧
      o.tax = round2 (o.subtotal * (18/100)) ∧
      o.total = o.subtotal + o.tax ∧
      s'.items = s.items ++ lines.map (fun l => l.toOrderItem oid) := by
  obtain ⟨lines, subtotal, hpi, hsub, htax, htot, -, -, -, -, -, hitems, -⟩ :=
    createOrder_ok h
  obtain ⟨hsum, hcent, hall⟩ := processItems_ok hpi
  refine ⟨lines, subtotal, hpi, hall, by rw [hsub, hsum], ?_, ?_, hitems⟩
  · rw [htax, hsub]; rfl
  · rw [htot, hsub, htax]
    exact round2_eq_self (isCent_add hcent
      (isCent_round2 (subtotal * (18/100))))

/-- C2 witness: the worked example prices to subtotal 8.80, tax 1.58,
total 10.38, and the pricing equations hold for it. -/
theorem c2_witness :
    ∃ lines subtotal,
      processItems storeNoPay.products reqA.items =
        Except.ok (lines, subtotal) ∧
      (∀ l ∈ lines, l.total = round2 (l.price * l.quantity) ∧
        linePriced storeNoPay.products l) ∧
      ordB.subtotal = (lines.map Line.total).sum ∧
      ordB.tax = round2 (ordB.subtotal * (18/100)) ∧
      ordB.total = ordB.subtotal + ordB.tax ∧
      storeAfterB.items = storeNoPay.items ++
        lines.map (fun l => l.toOrderItem "ORD-2") :=
  c2_create_order_pricing storeNoPay anaUser "ORD-2" reqA storeAfterB ordB
    createOrder_concrete

/-- C3 counterexample: an explicitly provided amount of 0 differs from the
order total 10.38 by more than 0.01, yet createPayment succeeds instead of
failing with AmountMismatch (0 is falsy, so it is replaced by the total). -/
theorem c3_zero_amount_cex :
    1/100 < |(0 : ℚ) - ordA.total| ∧
    ∃ s' p, createPayment storeNoPay "PAY-9" "ORD-1" PaymentMethod.CASH none
        (some 0) = Except.ok (s', p) ∧ p.amount = ordA.total := by
  constructor
  · rw [zero_sub, abs_neg,
      abs_of_nonneg (by norm_num [ordA] : (0:ℚ) ≤ ordA.total)]
    norm_num [ordA]
  · exact ⟨_, _, createPayment_zero_eq (by decide) rfl rfl, rfl⟩

/-- C3 (amended): for every explicitly provided nonzero amount, createPayment
fails with AmountMismatch when the amount differs from the order total by
more than 0.01 and succeeds when it differs by at most 0.01; an explicit
zero amount instead falls back to the order total (see C10). -/
theorem c3_amount_tolerance (s : Store) (nid oid : String)
    (m : PaymentMethod) (ref : Option String) (x : ℚ) (o : Order)
    (hne : ¬ oid = "") (ho : findOrder s oid = some o)
    (hnp : findPaymentByOrder s oid = none) (hx : ¬ x = 0) :
    (1/100 < |x - o.total| →
      createPayment s nid oid m ref (some x) =
        Except.error Err.amountMismatch) ∧
    (|x - o.total| ≤ 1/100 →
      ∃ s' p, createPayment s nid oid m ref (some x) = Except.ok (s', p) ∧
        p.amount = x ∧ p.status = PaymentStatus.PENDING) := by
  constructor
  · intro hgt
    rw [createPayment_some_eq hne ho hnp hx, if_pos hgt]
  · intro hle
    rw [createPayment_some_eq hne ho hnp hx, if_neg (not_lt.mpr hle)]
    exact ⟨_, _, rfl, rfl, rfl⟩

/-- C3 witness: against the order with total 10.38, amount 10.37 is accepted
and amount 10.30 fails with AmountMismatch. -/
theorem c3_witness :
    (∃ s' p, createPayment storeNoPay "PAY-9" "ORD-1" PaymentMethod.CASH none
        (some (1037/100)) = Except.ok (s', p) ∧
      p.amount = 1037/100 ∧ p.status = PaymentStatus.PENDING) ∧
    createPayment storeNoPay "PAY-9" "ORD-1" PaymentMethod.CASH none
        (some (103/10)) = Except.error Err.amountMismatch := by
  constructor
  · exact (c3_amount_tolerance storeNoPay "PAY-9" "ORD-1" PaymentMethod.CASH
      none (1037/100) ordA (by decide) rfl rfl (by norm_num)).2
      (by rw [show ordA.total = (519/50 : ℚ) from rfl, abs_le]; norm_num)
  · exact (c3_amount_tolerance storeNoPay "PAY-9" "ORD-1" PaymentMethod.CASH
      none (103/10) ordA (by decide) rfl rfl (by norm_num)).1
      (by rw [show ordA.total = (519/50 : ℚ) from rfl, abs_sub_comm, lt_abs]
          norm_num)

/-- C4: the verify route never validates the rejection reason: rejecting the
pending payment PAY-1 with no rejected_reason succeeds, leaving the payment
REJECTED with a null reason, even though the repository's own
VerifyPaymentSchema declares exactly this request invalid. -/
theorem c4_reject_without_reason_bug :
    (∃ s₁ p₁, verify storePending "PAY-1" PaymentStatus.REJECTED none none
        (some adminUser) = Except.ok (s₁, p₁) ∧
      p₁.status = PaymentStatus.REJECTED ∧ p₁.rejectedReason = none ∧
      findPayment s₁ "PAY-1" = some p₁) ∧
    validateVerifyPayment PaymentStatus.REJECTED none = false := by
  constructor
  · refine ⟨_, _, verify_rejected_eq rfl rfl, rfl, rfl, ?_⟩
    show (updatePayments storePending.payments "PAY-1" _).find? _ = _
    rw [findPayment_updatePayments storePending.payments "PAY-1"
      (rejectedRow payPending none none (some adminUser)) rfl]
    rfl
  · rfl

/-- C5 counterexample: called before verify (payment still PENDING, order
AWAITING_PAYMENT), confirm fails with PaymentNotVerified, not with
InvalidOrderStatus as the claim states. -/
theorem c5_confirm_before_verify_cex :
    confirmPayment storePending "PAY-1" none (some adminUser) =
      Except.error Err.paymentNotVerified ∧
    confirmPayment storePending "PAY-1" none (some adminUser) ≠
      Except.error Err.invalidOrderStatus := by
  have h : confirmPayment storePending "PAY-1" none (some adminUser) =
      Except.error Err.paymentNotVerified := rfl
  refine ⟨h, ?_⟩
  rw [h]
  intro hx
  injection hx with hx'
  exact Err.noConfusion hx'

/-- C5 (amended): confirm fails with PaymentNotFound when the payment is
absent; with PaymentNotVerified whenever the payment is not VERIFIED (in
particular when it is still PENDING — before verify — or REJECTED); with
InvalidOrderStatus when the payment is VERIFIED but the order is no longer
AWAITING_PAYMENT; and when the payment is VERIFIED and the order is
AWAITING_PAYMENT it sets the order to PREPARING and appends one history
row. -/
theorem c5_confirm_preconditions (s : Store) (pid : String)
    (notes : Option String) (a : Option AuthUser) :
    (findPayment s pid = none →
      confirmPayment s pid notes a = Except.error (Err.notFound "Payment")) ∧
    (∀ p, findPayment s pid = some p →
      p.status ≠ PaymentStatus.VERIFIED →
      confirmPayment s pid notes a = Except.error Err.paymentNotVerified) ∧
    (∀ p o, findPayment s pid = some p →
      p.status = PaymentStatus.VERIFIED →
      findOrder s p.orderId = some o →
      o.status ≠ OrderStatus.AWAITING_PAYMENT →
      confirmPayment s pid notes a = Except.error Err.invalidOrderStatus) ∧
    (∀ p o, findPayment s pid = some p →
      p.status = PaymentStatus.VERIFIED →
      findOrder s p.orderId = some o →
      o.status = OrderStatus.AWAITING_PAYMENT →
      confirmPayment s pid notes a = Except.ok
        ({ s with
            orders := updateOrders s.orders p.orderId
              (fun x => { x with status := OrderStatus.PREPARING }),
            history := s.history ++
              [{ orderId := p.orderId, status := OrderStatus.PREPARING,
                 notes := some (jsOr notes
                   "Payment confirmed - order started preparation"),
                 updatedBy := jsOr (a.bind (fun u => u.email)) "admin" }] },
         { o with status := OrderStatus.PREPARING })) := by
  refine ⟨?_, ?_, ?_, ?_⟩
  · intro h
    unfold confirmPayment
    simp only [h]
  · intro p hp hst
    unfold confirmPayment
    simp only [hp]
    rw [if_pos hst]
  · intro p o hp hst ho hbad
    unfold confirmPayment
    simp only [hp]
    rw [if_neg (not_not_intro hst)]
    simp only [ho]
    rw [if_pos hbad]
  · intro p o hp hst ho hgood
    unfold confirmPayment
    simp only [hp]
    rw [if_neg (not_not_intro hst)]
    simp only [ho]
    rw [if_neg (not_not_intro hgood)]

/-- C5 witness: a VERIFIED payment on an AWAITING_PAYMENT order confirms
successfully and the order moves to PREPARING; an unknown payment id fails
with PaymentNotFound. -/
theorem c5_witness :
    (∃ s' o', confirmPayment storeVerified "PAY-1" none (some adminUser) =
        Except.ok (s', o') ∧ o'.status = OrderStatus.PREPARING) ∧
    confirmPayment storeVerified "PAY-404" none (some adminUser) =
      Except.error (Err.notFound "Payment") := by
  constructor
  · exact ⟨_, _,
      (c5_confirm_preconditions storeVerified "PAY-1" none
        (some adminUser)).2.2.2 _ _ rfl rfl rfl rfl, rfl⟩
  · exact (c5_confirm_preconditions storeVerified "PAY-404" none
      (some adminUser)).1 rfl

/-- C6: verifying a PENDING payment with decision VERIFIED sets the order's
payment status to VERIFIED while leaving every other order field (status
included) unchanged and appends exactly one history row; with decision
REJECTED it sets the order's payment status to REJECTED and appends no
history row, with all other order fields unchanged. -/
theorem c6_verify_order_effects
    (s : Store) (pid : String) (p : Payment) (n r : Option String)
    (a : Option AuthUser)
    (hp : findPayment s pid = some p)
    (hpend : p.status = PaymentStatus.PENDING) :
    (∃ s₁ p₁, verify s pid PaymentStatus.VERIFIED n r a = Except.ok (s₁, p₁) ∧
      p₁.status = PaymentStatus.VERIFIED ∧
      (∀ o, findOrder s p.orderId = some o →
        findOrder s₁ p.orderId =
          some { o with paymentStatus := PaymentStatus.VERIFIED }) ∧
      s₁.history = s.history ++ [verifiedHistRow p a] ∧
      s₁.items = s.items ∧ s₁.products = s.products) ∧
    (∃ s₂ p₂, verify s pid PaymentStatus.REJECTED n r a = Except.ok (s₂, p₂) ∧
      p₂.status = PaymentStatus.REJECTED ∧
      (∀ o, findOrder s p.orderId = some o →
        findOrder s₂ p.orderId =
          some { o with paymentStatus := PaymentStatus.REJECTED }) ∧
      s₂.history = s.history ∧
      s₂.items = s.items ∧ s₂.products = s.products) := by
  constructor
  · refine ⟨_, _, verify_verified_eq hp hpend, rfl, ?_, rfl, rfl, rfl⟩
    intro o ho
    have ho' : s.orders.find? (fun x => x.id == p.orderId) = some o := ho
    show (updateOrders s.orders p.orderId _).find? _ = _
    rw [findOrder_updateOrders s.orders p.orderId
      (fun x => { x with paymentStatus := PaymentStatus.VERIFIED })
      (fun x => rfl), ho']
    rfl
  · refine ⟨_, _, verify_rejected_eq hp hpend, rfl, ?_, rfl, rfl, rfl⟩
    intro o ho
    have ho' : s.orders.find? (fun x => x.id == p.orderId) = some o := ho
    show (updateOrders s.orders p.orderId _).find? _ = _
    rw [findOrder_updateOrders s.orders p.orderId
      (fun x => { x with paymentStatus := PaymentStatus.REJECTED })
      (fun x => rfl), ho']
    rfl

/-- C6 witness: verifying the concrete pending payment PAY-1 flips ORD-1's
payment status to VERIFIED with one new history row; rejecting it flips the
payment status to REJECTED with no new history row. -/
theorem c6_witness :
    (∃ s₁ p₁, verify storePending "PAY-1" PaymentStatus.VERIFIED none none
        (some adminUser) = Except.ok (s₁, p₁) ∧
      findOrder s₁ "ORD-1" =
        some { ordA with paymentStatus := PaymentStatus.VERIFIED } ∧
      s₁.history = storePending.history ++
        [verifiedHistRow payPending (some adminUser)]) ∧
    (∃ s₂ p₂, verify storePending "PAY-1" PaymentStatus.REJECTED none none
        (some adminUser) = Except.ok (s₂, p₂) ∧
      findOrder s₂ "ORD-1" =
        some { ordA with paymentStatus := PaymentStatus.REJECTED } ∧
      s₂.history = storePending.history) := by
  obtain ⟨⟨s₁, p₁, hv₁, -, hord₁, hh₁, -, -⟩, ⟨s₂, p₂, hv₂, -, hord₂, hh₂, -, -⟩⟩ :=
    c6_verify_order_effects storePending "PAY-1" payPending none none
      (some adminUser) rfl rfl
  exact ⟨⟨s₁, p₁, hv₁, hord₁ ordA rfl, hh₁⟩, ⟨s₂, p₂, hv₂, hord₂ ordA rfl, hh₂⟩⟩

/-- C7: createOrder is all-or-nothing: for every request whose item list
contains a missing product, an inactive product, a falsy product id or a
non-positive quantity, createOrder fails and the committed store is exactly
the store before the request (no Order, OrderItem or history rows). -/
theorem c7_create_order_all_or_nothing
    (s : Store) (user : AuthUser) (oid : String) (req : CreateOrderReq)
    (hbad : ∃ it ∈ req.items, badItem s.products it) :
    (∃ e, createOrder s user oid req = Except.error e) ∧
    runCreateOrder s user oid req = s := by
  have herr : ∃ e, createOrder s user oid req = Except.error e := by
    unfold createOrder
    by_cases hreq : req.customer_name = "" ∨ req.customer_phone = "" ∨
        req.customer_address = "" ∨ req.items = []
    · exact ⟨_, by rw [if_pos hreq]⟩
    · rw [if_neg hreq]
      obtain ⟨e, he⟩ := processItems_badItem hbad
      exact ⟨e, by simp only [he]⟩
  obtain ⟨e, he⟩ := herr
  exact ⟨⟨e, he⟩, by simp only [runCreateOrder, he]⟩

/-- C7 witness: a request holding the inactive catalog product fails and
leaves the store untouched. -/
theorem c7_witness :
    (∃ e, createOrder storeNoPay anaUser "ORD-9" reqBad = Except.error e) ∧
    runCreateOrder storeNoPay anaUser "ORD-9" reqBad = storeNoPay :=
  c7_create_order_all_or_nothing storeNoPay anaUser "ORD-9" reqBad
    ⟨{ product_id := 3, presentation_id := none, quantity := 1 },
     List.mem_singleton.mpr rfl,
     Or.inr (Or.inr (Or.inr ⟨oldStock, rfl, rfl⟩))⟩

/-- C8: cancelling an existing order (as an authorized caller) fails with
AlreadyDelivered when it is DELIVERED, with AlreadyCancelled when it is
already CANCELLED, and for every other status succeeds, setting the status
to CANCELLED and appending exactly one history row carrying the given
reason or the default text. -/
theorem c8_cancel_transitions (s : Store) (oid : String)
    (reason : Option String) (actor : Option AuthUser) (o : Order)
    (ho : findOrder s oid = some o)
    (hauth : cancelForbidden actor o = false) :
    (o.status = OrderStatus.DELIVERED →
      cancel s oid reason actor = Except.error Err.orderAlreadyDelivered) ∧
    (o.status = OrderStatus.CANCELLED →
      cancel s oid reason actor = Except.error Err.orderAlreadyCancelled) ∧
    (o.status ≠ OrderStatus.DELIVERED → o.status ≠ OrderStatus.CANCELLED →
      cancel s oid reason actor = Except.ok
        ({ s with
            orders := updateOrders s.orders oid
              (fun x => { x with status := OrderStatus.CANCELLED }),
            history := s.history ++
              [{ orderId := oid, status := OrderStatus.CANCELLED,
                 notes := some (jsOr reason "Order cancelled"),
                 updatedBy := jsOr (actor.bind (fun u => u.email)) "system" }] },
         { o with status := OrderStatus.CANCELLED })) := by
  refine ⟨?_, ?_, ?_⟩
  · intro hst
    unfold cancel
    simp only [ho]
    rw [if_neg (by simp [hauth])]
    rw [if_neg (by simp [hst])]
    rw [if_pos hst]
  · intro hst
    unfold cancel
    simp only [ho]
    rw [if_neg (by simp [hauth])]
    rw [if_pos hst]
  · intro hd hc
    unfold cancel
    simp only [ho]
    rw [if_neg (by simp [hauth])]
    rw [if_neg hc]
    rw [if_neg hd]

/-- C8 witness: the admin cancels the AWAITING_PAYMENT order ORD-1 with a
reason; the status becomes CANCELLED and one history row with that reason
is appended. -/
theorem c8_witness :
    ∃ s' o', cancel storeNoPay "ORD-1" (some "changed mind")
        (some adminUser) = Except.ok (s', o') ∧
      o'.status = OrderStatus.CANCELLED ∧
      s'.history = storeNoPay.history ++
        [{ orderId := "ORD-1", status := OrderStatus.CANCELLED,
           notes := some "changed mind",
           updatedBy := "admin@store.test" }] := by
  have h := (c8_cancel_transitions storeNoPay "ORD-1" (some "changed mind")
    (some adminUser) ordA rfl rfl).2.2 (by decide) (by decide)
  exact ⟨_, _, h, rfl, rfl⟩

/-- C9 counterexample: no successful createOrder ever produces an order with
a null owning account reference; the route requires authentication and the
controller records the caller's id unconditionally. -/
theorem c9_no_guest_order_cex :
    ¬ ∃ (s : Store) (user : AuthUser) (oid : String) (req : CreateOrderReq)
        (s' : Store) (o : Order),
      createOrder s user oid req = Except.ok (s', o) ∧ o.userId = none := by
  rintro ⟨s, user, oid, req, s', o, h, hnone⟩
  rw [createOrder_userId h] at hnone
  exact Option.noConfusion hnone

/-- C9 (amended): the data model keeps the owning account reference
nullable, but createOrder always records the authenticated caller: every
successful createOrder yields an order whose user id is the caller's id and
never null, so guest orders cannot be created through createOrder. -/
theorem c9_order_records_caller (s : Store) (user : AuthUser) (oid : String)
    (req : CreateOrderReq) (s' : Store) (o : Order)
    (h : createOrder s user oid req = Except.ok (s', o)) :
    o.userId = some user.id ∧ o.userId ≠ none := by
  refine ⟨createOrder_userId h, ?_⟩
  rw [createOrder_userId h]
  exact fun hx => Option.noConfusion hx

/-- C9 witness: the worked example order is created for the authenticated
customer and carries that customer's id. -/
theorem c9_witness :
    createOrder storeNoPay anaUser "ORD-2" reqA =
      Except.ok (storeAfterB, ordB) ∧
    ordB.userId = some anaUser.id ∧ ordB.userId ≠ none :=
  ⟨createOrder_concrete,
   c9_order_records_caller storeNoPay anaUser "ORD-2" reqA storeAfterB ordB
     createOrder_concrete⟩

/-- C10: for an order with no prior payment, createPayment with an explicit
amount of 0 behaves exactly like an omitted amount: it does not fail with
AmountMismatch, and the payment is created PENDING with the order's total
as its amount. -/
theorem c10_zero_amount_defaults (s : Store) (nid oid : String)
    (m : PaymentMethod) (ref : Option String) (o : Order)
    (hne : ¬ oid = "") (ho : findOrder s oid = some o)
    (hnp : findPaymentByOrder s oid = none) :
    createPayment s nid oid m ref (some 0) =
      createPayment s nid oid m ref none ∧
    ∃ s' p, createPayment s nid oid m ref (some 0) = Except.ok (s', p) ∧
      p.amount = o.total ∧ p.status = PaymentStatus.PENDING := by
  refine ⟨?_, _, _, createPayment_zero_eq hne ho hnp, rfl, rfl⟩
  rw [createPayment_zero_eq hne ho hnp, createPayment_none_eq hne ho hnp]

/-- C10 witness: on the order with total 10.38 and no payment, an explicit
zero amount is accepted and the payment is created PENDING over 10.38. -/
theorem c10_witness :
    createPayment storeNoPay "PAY-9" "ORD-1" PaymentMethod.CASH none
        (some 0) =
      createPayment storeNoPay "PAY-9" "ORD-1" PaymentMethod.CASH none none ∧
    ∃ s' p, createPayment storeNoPay "PAY-9" "ORD-1" PaymentMethod.CASH none
        (some 0) = Except.ok (s', p) ∧
      p.amount = ordA.total ∧ p.status = PaymentStatus.PENDING :=
  c10_zero_amount_defaults storeNoPay "PAY-9" "ORD-1" PaymentMethod.CASH
    none ordA (by decide) rfl rfl

end ECom
